import Mathlib

/-!
# Cerina Protocol Foundry — verification of the orchestration core

Shallow embedding of the repository's Python backend:
* `src/backend/agents/state.py` — the blackboard state (`ProtocolState`) and its
  append helpers `add_agent_note`, `add_draft_version`, `create_initial_state`;
* `src/backend/agents/workflow.py` — the step nodes (`draft_node`) and the
  router `should_continue`;
* `src/backend/main.py` — the endpoint logic `create_protocol`,
  `stream_protocol`, `approve_protocol`, `halt_protocol`.

Modelling conventions:
* Python `datetime.now()` is modelled by an explicit `now : Nat` parameter
  threaded to every function that stamps a timestamp.
* Python `Optional[str]` is `Option String`; Python truthiness of a string
  (`if x:`) is `x ≠ ""`, and of an `Optional[str]` it is `pyTruthy`.
* Python float scores are opaque payloads the claims never compute with;
  they are modelled as `Option Rat` so that equality stays decidable.
* Python `in` on strings (substring test) is `containsSub`.
* Python dicts keyed by strings (`_session_intents`, the checkpoint store)
  are association lists / functions `String → Option _`.
* A raised Python exception is an `Except` error; FastAPI `HTTPException`
  and `AttributeError` are constructors of `PyExc`.
-/

namespace Foundry

/-- Python substring test: `needle in hay`. -/
def containsSub (needle hay : String) : Bool :=
  hay.toList.tails.any (fun t => needle.toList.isPrefixOf t)

/-- Python `s.strip()`: remove leading and trailing whitespace (defined by
structural recursion over the character list so that concrete instances
evaluate). -/
def pyStrip (s : String) : String :=
  ⟨((s.toList.dropWhile Char.isWhitespace).reverse.dropWhile
      Char.isWhitespace).reverse⟩

/-- Python truthiness of an `Optional[str]`: `None` and `""` are falsy. -/
def pyTruthy : Option String → Bool
  | none => false
  | some s => !(s == "")

/-- `AgentNote` from `state.py`: a note agents leave on the blackboard. -/
structure AgentNote where
  agent_name : String
  note : String
  target_agent : Option String
  timestamp : Nat
  priority : String
deriving Repr, DecidableEq

/-- `ProtocolDraft` from `state.py`: one versioned draft record. -/
structure ProtocolDraft where
  content : String
  version : Nat
  iteration : Nat
  created_by : String
  timestamp : Nat
  safety_score : Option Rat
  empathy_score : Option Rat
  clinical_score : Option Rat
  feedback : List String
deriving Repr, DecidableEq

/-- `ProtocolState` from `state.py`: the shared blackboard record.
`agent_decisions` and `metadata` hold `Any`-typed values the core never
inspects; they are modelled as string association lists. -/
structure ProtocolState where
  user_intent : String
  session_id : String
  status : String
  current_draft : Option String
  draft_history : List ProtocolDraft
  current_version : Nat
  iteration_count : Nat
  max_iterations : Nat
  agent_notes : List AgentNote
  active_agent : Option String
  agent_decisions : List (String × String)
  safety_checks : List (String × Bool)
  safety_score : Option Rat
  empathy_score : Option Rat
  clinical_score : Option Rat
  halted : Bool
  human_approved : Bool
  human_edits : Option String
  start_time : Nat
  last_update : Nat
  metadata : List (String × String)
deriving Repr, DecidableEq

/-- `create_initial_state` from `state.py`. -/
def create_initial_state (user_intent session_id : String)
    (max_iterations : Nat) (now : Nat) : ProtocolState where
  user_intent := user_intent
  session_id := session_id
  status := "initializing"
  current_draft := none
  draft_history := []
  current_version := 0
  iteration_count := 0
  max_iterations := max_iterations
  agent_notes := []
  active_agent := none
  agent_decisions := []
  safety_checks := []
  safety_score := none
  empathy_score := none
  clinical_score := none
  halted := false
  human_approved := false
  human_edits := none
  start_time := now
  last_update := now
  metadata := []

/-- `add_agent_note` from `state.py`: appends a note, stamps `last_update`. -/
def add_agent_note (state : ProtocolState) (agent_name note : String)
    (target_agent : Option String) (priority : String) (now : Nat) :
    ProtocolState :=
  { state with
    agent_notes := state.agent_notes ++
      [{ agent_name := agent_name, note := note, target_agent := target_agent,
         timestamp := now, priority := priority }]
    last_update := now }

/-- `add_draft_version` from `state.py`: appends a draft record whose
`version` is `current_version + 1` and whose `iteration` is the state's
`iteration_count`, then updates `current_version`, `current_draft` and
`last_update`. -/
def add_draft_version (state : ProtocolState) (content created_by : String)
    (safety_score empathy_score clinical_score : Option Rat) (now : Nat) :
    ProtocolState :=
  let new_draft : ProtocolDraft :=
    { content := content
      version := state.current_version + 1
      iteration := state.iteration_count
      created_by := created_by
      timestamp := now
      safety_score := safety_score
      empathy_score := empathy_score
      clinical_score := clinical_score
      feedback := [] }
  { state with
    draft_history := state.draft_history ++ [new_draft]
    current_version := new_draft.version
    current_draft := some content
    last_update := now }

/-- `should_continue` from `workflow.py`, the router. It is embedded as a
function returning the decision string together with the state after the
call, because the `human_approved` branch executes the assignment
`state["halted"] = False` before returning `"end"`. -/
def should_continue (state : ProtocolState) : String × ProtocolState :=
  if state.halted then ("halt", state)
  else if state.human_approved then ("end", { state with halted := false })
  else if state.active_agent == some "Drafter" then ("safety_review", state)
  else if state.active_agent == some "SafetyGuardian" then
    ("clinical_critique", state)
  else if state.active_agent == some "ClinicalCritic" then ("supervisor", state)
  else if state.active_agent == some "Supervisor" then
    if containsSub "needs_revision" state.status then ("draft", state)
    else if containsSub "ready_for_review" state.status ||
        containsSub "awaiting_review" state.status then ("halt", state)
    else ("end", state)
  else if !(pyTruthy state.current_draft) then ("draft", state)
  else ("supervisor", state)

/-- The routing decision alone (first component of `should_continue`). -/
def route (state : ProtocolState) : String := (should_continue state).1

/-- Result dictionary returned by the drafting collaborator
(`drafter.draft`, an external agent call): the keys `draft_node` reads,
each possibly absent. -/
structure DraftResult where
  current_draft : Option String
  active_agent : Option String
  status : Option String
deriving Repr, DecidableEq

/-- `draft_node` from `workflow.py`. The collaborator call
`await drafter.draft(state)` is modelled by its outcome
`collab : Except String DraftResult`; a raised exception propagates before
any of the node's mutations run, so the error case returns the input state
unchanged, paired with the error. -/
def draft_node (collab : Except String DraftResult) (state : ProtocolState)
    (now : Nat) : ProtocolState × Option String :=
  match collab with
  | Except.error e => (state, some e)
  | Except.ok result =>
    let s1 : ProtocolState :=
      { state with
        current_draft :=
          match result.current_draft with
          | some c => some c
          | none => state.current_draft
        active_agent := some (result.active_agent.getD "Drafter")
        status := result.status.getD "drafting"
        iteration_count := state.iteration_count + 1 }
    match s1.current_draft with
    | some c =>
      if c == "" then (s1, none)
      else (add_draft_version s1 c "Drafter" none none none now, none)
    | none => (s1, none)

/-- Quick sanity checks of the router on concrete states (kept as
anonymous examples, not part of any claim). -/
def sampleState : ProtocolState :=
  create_initial_state "intent" "s1" 5 0

example : route sampleState = "draft" := by decide

example : route { sampleState with active_agent := some "Drafter" } =
    "safety_review" := by decide

example :
    route { sampleState with
            active_agent := some "Supervisor"
            status := "needs_revision" } = "draft" := by decide

example :
    route { sampleState with
            active_agent := some "Supervisor"
            status := "ready_for_review" } = "halt" := by decide

example : route { sampleState with halted := true } = "halt" := by decide

/-! ## Embedding of `src/backend/main.py`

The checkpoint store (LangGraph's `SqliteSaver`, keyed by
`thread_id = session_id` via `aget_state`/`aupdate_state`) is modelled as a
map `String → Option ProtocolState`; the module-level dict
`_session_intents` as an association list. Both live in `StoreWorld`. -/

/-- Python exceptions raised by the endpoint bodies. -/
inductive PyExc where
  | http (status : Nat) (detail : String)
  | attributeError (msg : String)
deriving Repr, DecidableEq

/-- Python `str(e)`: FastAPI's `HTTPException` prints as `"404: detail"`. -/
def PyExc.str : PyExc → String
  | PyExc.http s d => toString s ++ ": " ++ d
  | PyExc.attributeError m => m

/-- The message of the `AttributeError` raised by `None.strip()`. -/
def noneStripMsg : String := "NoneType object has no attribute strip"

/-- The mutable world the endpoints act on: the checkpoint store and the
module-level `_session_intents` dict. -/
structure StoreWorld where
  checkpoints : String → Option ProtocolState
  session_intents : List (String × String)

/-- Python dict assignment `d[k] = v` on an association list. -/
def dictSet (l : List (String × String)) (k v : String) :
    List (String × String) :=
  if l.any (fun p => p.1 == k) then
    l.map (fun p => if p.1 == k then (k, v) else p)
  else l ++ [(k, v)]

/-- Python `d.pop(k, None)` on an association list. -/
def dictPop (l : List (String × String)) (k : String) :
    List (String × String) :=
  l.filter (fun p => !(p.1 == k))

/-- Python `k in d` / `d[k]` lookup on an association list. -/
def dictGet (l : List (String × String)) (k : String) : Option String :=
  (l.find? (fun p => p.1 == k)).map (fun p => p.2)

/-- `workflow.aupdate_state(config, st)`: write the checkpoint for `sid`. -/
def putCheckpoint (w : StoreWorld) (sid : String) (st : ProtocolState) :
    StoreWorld :=
  { w with checkpoints := fun k => if k == sid then some st else w.checkpoints k }

/-- The body of `ProtocolResponse` that `create_protocol` returns. -/
structure CreateResponse where
  session_id : String
  status : String
  message : String
deriving Repr, DecidableEq

/-- `create_protocol` from `main.py`. `update_ok` abstracts whether the
`aupdate_state` attempt inside the inner `try` succeeds (the code treats
any failure as non-critical and continues). The background task that the
endpoint schedules after building the response runs after the response is
returned and is outside this fragment. -/
def create_protocol (request_intent : String)
    (request_session_id : Option String) (update_ok : Bool) (now : Nat)
    (w : StoreWorld) : CreateResponse × StoreWorld :=
  let session_id :=
    match request_session_id with
    | some s => if s == "" then "session_" ++ toString now else s
    | none => "session_" ++ toString now
  let w1 :=
    { w with session_intents := dictSet w.session_intents session_id request_intent }
  let initial_state := create_initial_state request_intent session_id 5 now
  let checkpoint_created := update_ok
  let w2 := if update_ok then putCheckpoint w1 session_id initial_state else w1
  let w3 :=
    if checkpoint_created then
      { w2 with session_intents := dictPop w2.session_intents session_id }
    else w2
  ({ session_id := session_id
     status := "initializing"
     message := "Protocol generation initialized. Workflow execution started." },
   w3)

/-- The part of `approve_protocol` inside the `try`, up to and including the
first `aupdate_state` persist: load the state (raising `HTTPException 404`
if the session has no checkpoint), apply the optional human edit (the
comparison `request.approved_content.strip() != current_draft.strip()`
raises `AttributeError` when the stored `current_draft` is `None`), append
the human approval note, set the approval flags, and persist. Returns the
persisted state, the `has_edits` flag and the world after the persist. -/
def approve_body (w : StoreWorld) (sid : String)
    (approved_content : Option String) (now : Nat) :
    Except PyExc (ProtocolState × Bool × StoreWorld) :=
  match w.checkpoints sid with
  | none => Except.error (PyExc.http 404 "Session not found")
  | some vals =>
    let edits : Except PyExc (ProtocolState × Bool) :=
      match approved_content with
      | some c =>
        if c == "" then Except.ok (vals, false)
        else
          match vals.current_draft with
          | none => Except.error (PyExc.attributeError noneStripMsg)
          | some d =>
            if !(pyStrip c == pyStrip d) then
              Except.ok ({ vals with current_draft := some c, human_edits := some c }, true)
            else Except.ok (vals, false)
      | none => Except.ok (vals, false)
    match edits with
    | Except.error e => Except.error e
    | Except.ok (st, has_edits) =>
      let msg := "Protocol approved and finalized" ++
        (if has_edits then " (with edits)" else "")
      let st2 := add_agent_note st "Human" msg none "info" now
      let st3 := { st2 with human_approved := true, halted := false, status := "approved" }
      Except.ok (st3, has_edits, putCheckpoint w sid st3)

/-- What the `approve` endpoint answers with. -/
inductive ApproveOutcome where
  | ok (session_id : String) (final_state : ProtocolState)
  | httpError (status : Nat) (detail : String)
deriving Repr, DecidableEq

/-- `approve_protocol` from `main.py`. After the persist of `approve_body`
the endpoint resumes the workflow (`workflow.ainvoke(None, config)`), which
is the LangGraph engine driving the step nodes; that run is abstracted by
the `resume` parameter (new world and resulting state). The whole body runs
inside `try ... except Exception as e: raise HTTPException(500, str(e))`,
so every raised exception — including the endpoint's own
`HTTPException(404)` — is re-surfaced as a 500. Error paths leave the world
untouched. -/
def approve_protocol (resume : StoreWorld → String → StoreWorld × ProtocolState)
    (w : StoreWorld) (sid : String) (approved_content : Option String)
    (now : Nat) : ApproveOutcome × StoreWorld :=
  match approve_body w sid approved_content now with
  | Except.error e => (ApproveOutcome.httpError 500 e.str, w)
  | Except.ok (_, _, w2) =>
    let (w3, result) := resume w2 sid
    if result.status == "completed" then
      let result2 := add_agent_note result "System"
        "Protocol generation completed successfully" none "info" now
      (ApproveOutcome.ok sid result2, putCheckpoint w3 sid result2)
    else (ApproveOutcome.ok sid result, w3)

/-- What the `halt` endpoint answers with. -/
inductive HaltOutcome where
  | ok (session_id : String) (current_draft : Option String)
  | httpError (status : Nat) (detail : String)
deriving Repr, DecidableEq

/-- The part of `halt_protocol` inside the `try`: load the state (404 when
the session has no checkpoint), force `status = "awaiting_approval"` and
`halted = true`, append the halt note, persist. -/
def halt_body (w : StoreWorld) (sid : String) (now : Nat) :
    Except PyExc (ProtocolState × StoreWorld) :=
  match w.checkpoints sid with
  | none => Except.error (PyExc.http 404 "Session not found")
  | some vals =>
    let st := { vals with status := "awaiting_approval", halted := true }
    let st2 := add_agent_note st "Human" "Workflow halted for review" none "warning" now
    Except.ok (st2, putCheckpoint w sid st2)

/-- `halt_protocol` from `main.py`, with the same blanket
`except Exception → HTTPException(500, str(e))` wrapper as `approve`. -/
def halt_protocol (w : StoreWorld) (sid : String) (now : Nat) :
    HaltOutcome × StoreWorld :=
  match halt_body w sid now with
  | Except.error e => (HaltOutcome.httpError 500 e.str, w)
  | Except.ok (st, w2) => (HaltOutcome.ok sid st.current_draft, w2)

/-- Server-sent events the `stream` endpoint yields (timestamps, being
wall-clock decoration of the payload, are not modelled). -/
inductive StreamEvent where
  | complete (st : Option ProtocolState)
  | haltedEv (st : ProtocolState) (msg : String)
  | state_update (node : String) (st : ProtocolState)
  | errorEv (msg : String)
deriving Repr, DecidableEq

/-- Result of one `stream` subscription: the events yielded, the world
afterwards, and whether the workflow engine (`workflow.astream`) was
invoked at all. -/
structure StreamOutcome where
  events : List StreamEvent
  world : StoreWorld
  executed : Bool

/-- `stream_protocol` from `main.py` (the `event_generator`). The
`workflow.astream` loop — the LangGraph engine running the step nodes and
yielding per-node `state_update`/`halted` events — is abstracted by the
`runner` parameter; after it the generator yields a final `complete` event
holding whatever `aget_state` then returns. All branches before the run
(completed/halted replay, checkpoint seeding from `_session_intents`, the
missing-state error) are embedded directly from the source. -/
def stream_protocol (runner : StoreWorld → String → List StreamEvent × StoreWorld)
    (w : StoreWorld) (sid : String) (now : Nat) : StreamOutcome :=
  let runAndComplete : StoreWorld → String → StreamOutcome := fun w' initial_status =>
    if !(initial_status == "completed" || initial_status == "awaiting_approval") then
      let (evs, w2) := runner w' sid
      { events := evs ++ [StreamEvent.complete (w2.checkpoints sid)]
        world := w2, executed := true }
    else
      { events := [StreamEvent.complete (w'.checkpoints sid)]
        world := w', executed := false }
  match w.checkpoints sid with
  | some v =>
    if v.status == "completed" then
      { events := [StreamEvent.complete (some v)], world := w, executed := false }
    else if v.halted || v.status == "awaiting_approval" then
      { events := [StreamEvent.haltedEv v "Workflow paused for human review"]
        world := w, executed := false }
    else if v.status == "initializing" then
      runAndComplete w v.status
    else if v.halted || v.status == "awaiting_approval" then
      { events := [StreamEvent.haltedEv v "Workflow is already paused for human review"]
        world := w, executed := false }
    else
      runAndComplete w v.status
  | none =>
    match dictGet w.session_intents sid with
    | some intent =>
      let init := create_initial_state intent sid 5 now
      let w1 := putCheckpoint w sid init
      let w2 := { w1 with session_intents := dictPop w1.session_intents sid }
      runAndComplete w2 init.status
    | none =>
      { events := [StreamEvent.errorEv "No initial state found. Please create protocol first using /api/protocols/create endpoint."]
        world := w, executed := false }

/-! ## Spec-side decision table (for the refinement claim about the router) -/

/-- The spec's §4.3 decision table, rules 1–8 in order, first match wins,
with rule 7's "`current_draft` absent" read strictly as `None` (the data
model's `optional string` being absent). Decision names follow the code's
literals (`"supervisor"` for the spec's `supervise`, `"end"` for
`terminate`). -/
def routeSpecTable (s : ProtocolState) : String :=
  if s.halted then "halt"
  else if s.human_approved then "end"
  else if s.active_agent == some "Drafter" then "safety_review"
  else if s.active_agent == some "SafetyGuardian" then "clinical_critique"
  else if s.active_agent == some "ClinicalCritic" then "supervisor"
  else if s.active_agent == some "Supervisor" then
    if containsSub "needs_revision" s.status then "draft"
    else if containsSub "ready_for_review" s.status ||
        containsSub "awaiting_review" s.status then "halt"
    else "end"
  else if s.current_draft == none then "draft"
  else "supervisor"

/-- The spec's §4.3 decision table with rule 7 amended to what the code
implements: "`current_draft` absent **or empty** → `draft`" (Python
truthiness treats the empty string like `None`). -/
def routeSpecAmendedTable (s : ProtocolState) : String :=
  if s.halted then "halt"
  else if s.human_approved then "end"
  else if s.active_agent == some "Drafter" then "safety_review"
  else if s.active_agent == some "SafetyGuardian" then "clinical_critique"
  else if s.active_agent == some "ClinicalCritic" then "supervisor"
  else if s.active_agent == some "Supervisor" then
    if containsSub "needs_revision" s.status then "draft"
    else if containsSub "ready_for_review" s.status ||
        containsSub "awaiting_review" s.status then "halt"
    else "end"
  else if s.current_draft == none || s.current_draft == some "" then "draft"
  else "supervisor"

lemma not_pyTruthy_eq (o : Option String) :
    (!(pyTruthy o)) = (o == none || o == some "") := by
  cases o with
  | none => rfl
  | some s => simp [pyTruthy]

/-! ## Claims -/

/-- A state at the iteration cap in which the supervisor requests another
revision: `iteration_count = max_iterations = 5`, `active_agent =
"Supervisor"`, `status = "needs_revision"`. -/
def capState : ProtocolState :=
  { sampleState with
    active_agent := some "Supervisor"
    status := "needs_revision"
    iteration_count := 5
    max_iterations := 5 }

/-- C1: the source router has no `max_iterations` check at all. At a state
with `iteration_count = max_iterations` where the supervisor requests
revision, `should_continue` returns `"draft"`, not `"halt"`, and the draft
step then pushes `iteration_count` past `max_iterations` — so the claimed
reachable-state invariant `iteration_count ≤ max_iterations` also fails. -/
theorem c1_router_ignores_iteration_cap :
    route capState = "draft" ∧
    capState.iteration_count = capState.max_iterations ∧
    (draft_node (Except.ok { current_draft := some "d2", active_agent := none, status := none })
        capState 1).1.iteration_count = capState.max_iterations + 1 := by
  refine ⟨by decide, rfl, by decide⟩

/-- A state with an *empty-string* draft and no active agent: Python
truthiness makes the code treat it as "no draft". -/
def emptyDraftState : ProtocolState := { sampleState with current_draft := some "" }

/-- C2 counterexample: the code's router and the spec's decision table
(rule 7: "`current_draft` absent → draft", absent read as `None`) disagree
on a state whose `current_draft` is the *empty string*: the code returns
`"draft"`, the table's fallback gives `"supervisor"`. -/
theorem c2_counterexample_empty_draft :
    ¬ (route emptyDraftState = routeSpecTable emptyDraftState) := by decide

/-- C2 (amended): the router implements the spec's decision table evaluated
in order with first match winning, with rule 7 reading "`current_draft`
absent or empty → draft". -/
theorem c2_router_matches_decision_table (s : ProtocolState) :
    route s = routeSpecAmendedTable s := by
  simp only [route, should_continue, routeSpecAmendedTable, not_pyTruthy_eq,
    apply_ite Prod.fst]

/-- C5: if the drafting collaborator call fails, `draft_node` leaves the
state completely unchanged (the exception propagates before any of the
node's mutations execute) and reports the error. -/
theorem c5_draft_node_error_leaves_state_unchanged
    (s : ProtocolState) (e : String) (now : Nat) :
    draft_node (Except.error e) s now = (s, some e) ∧
    (draft_node (Except.error e) s now).1.iteration_count = s.iteration_count ∧
    (draft_node (Except.error e) s now).1.current_draft = s.current_draft ∧
    (draft_node (Except.error e) s now).1.draft_history = s.draft_history ∧
    (draft_node (Except.error e) s now).1.status = s.status ∧
    (draft_node (Except.error e) s now).1.active_agent = s.active_agent := by
  exact ⟨rfl, rfl, rfl, rfl, rfl, rfl⟩

/-- C9: the router is a deterministic pure function of the state: equal
inputs give equal outputs, and the state it hands back is the input state
unchanged (the `state["halted"] = False` assignment in the
`human_approved` branch only ever runs when `halted` is already `False`,
because the `halted` branch returns first). -/
theorem c9_router_deterministic_and_pure (s t : ProtocolState) (h : s = t) :
    should_continue s = should_continue t ∧ (should_continue s).2 = s := by
  subst h
  refine ⟨rfl, ?_⟩
  unfold should_continue
  by_cases hH : s.halted
  · simp [hH]
  · by_cases hA : s.human_approved
    · have hH0 : s.halted = false := by simpa using hH
      simp only [hH, hA, if_true, if_false, Bool.false_eq_true]
      cases s
      simp_all
    · simp only [hH, hA, Bool.false_eq_true, if_false]
      repeat' split
      all_goals rfl

/-- Closed witness for C9 at a concrete state. -/
theorem c9_router_deterministic_and_pure_witness :
    should_continue sampleState = should_continue sampleState ∧
    (should_continue sampleState).2 = sampleState :=
  c9_router_deterministic_and_pure sampleState sampleState rfl

/-! ## Draft-history invariant (C3) -/

/-- States reachable from `create_initial_state` by appending drafts only
through `add_draft_version` (the claim's closed world for the history
invariant). -/
inductive ReachAppend : ProtocolState → Prop where
  | init (user_intent session_id : String) (max_iterations now : Nat) :
      ReachAppend (create_initial_state user_intent session_id max_iterations now)
  | step (s : ProtocolState) (content created_by : String)
      (ss es cs : Option Rat) (now : Nat) : ReachAppend s →
      ReachAppend (add_draft_version s content created_by ss es cs now)

lemma reachAppend_version_inv (s : ProtocolState) (hs : ReachAppend s) :
    s.current_version = s.draft_history.length ∧
    ∀ i (h : i < s.draft_history.length), (s.draft_history[i]).version = i + 1 := by
  induction hs with
  | init intent sid mi now =>
    refine ⟨rfl, ?_⟩
    intro i h
    simp [create_initial_state] at h
  | step s content created_by ss es cs now hsr ih =>
    obtain ⟨hlen, hver⟩ := ih
    constructor
    · simp [add_draft_version, hlen]
    · intro i h
      simp only [add_draft_version] at h ⊢
      simp only [List.length_append, List.length_cons, List.length_nil] at h
      rcases Nat.lt_or_ge i s.draft_history.length with hi | hi
      · rw [List.getElem_append_left hi]
        exact hver i hi
      · have hie : i = s.draft_history.length := by omega
        subst hie
        rw [List.getElem_concat_length _ _ _ rfl]
        rw [hlen]

/-- C3: `add_draft_version` appends exactly one record whose `version` is
the previous `current_version + 1` and whose `iteration` is the state's
`iteration_count`, sets `current_version` to that version, `current_draft`
to the given content, and refreshes `last_update`; and on every state
reachable from the initial state by this operation alone the history
satisfies `draft_history[i].version = i + 1`, so versions are strictly
increasing. -/
theorem c3_add_draft_version_append_invariant
    (s : ProtocolState) (content created_by : String) (ss es cs : Option Rat)
    (now : Nat) (hs : ReachAppend s) :
    (add_draft_version s content created_by ss es cs now).draft_history =
      s.draft_history ++
        [{ content := content, version := s.current_version + 1,
           iteration := s.iteration_count, created_by := created_by,
           timestamp := now, safety_score := ss, empathy_score := es,
           clinical_score := cs, feedback := [] }] ∧
    (add_draft_version s content created_by ss es cs now).current_version =
      s.current_version + 1 ∧
    (add_draft_version s content created_by ss es cs now).current_draft =
      some content ∧
    (add_draft_version s content created_by ss es cs now).last_update = now ∧
    (∀ i (h : i < (add_draft_version s content created_by ss es cs now).draft_history.length),
      ((add_draft_version s content created_by ss es cs now).draft_history[i]).version = i + 1) ∧
    (∀ i j (hi : i < (add_draft_version s content created_by ss es cs now).draft_history.length)
      (hj : j < (add_draft_version s content created_by ss es cs now).draft_history.length),
      i < j →
      ((add_draft_version s content created_by ss es cs now).draft_history[i]).version <
        ((add_draft_version s content created_by ss es cs now).draft_history[j]).version) := by
  have hinv := reachAppend_version_inv _ (ReachAppend.step s content created_by ss es cs now hs)
  refine ⟨rfl, rfl, rfl, rfl, hinv.2, ?_⟩
  intro i j hi hj hij
  rw [hinv.2 i hi, hinv.2 j hj]
  omega

/-- Closed witness for C3: one append onto the freshly created state. -/
theorem c3_add_draft_version_append_invariant_witness :
    (add_draft_version sampleState "draft one" "Drafter" none none none 3).draft_history =
      sampleState.draft_history ++
        [{ content := "draft one", version := sampleState.current_version + 1,
           iteration := sampleState.iteration_count, created_by := "Drafter",
           timestamp := 3, safety_score := none, empathy_score := none,
           clinical_score := none, feedback := [] }] ∧
    (add_draft_version sampleState "draft one" "Drafter" none none none 3).current_version =
      sampleState.current_version + 1 ∧
    (add_draft_version sampleState "draft one" "Drafter" none none none 3).current_draft =
      some "draft one" ∧
    (add_draft_version sampleState "draft one" "Drafter" none none none 3).last_update = 3 ∧
    ((add_draft_version sampleState "draft one" "Drafter" none none none 3).draft_history.get
      ⟨0, by decide⟩).version = 0 + 1 := by
  have h := c3_add_draft_version_append_invariant sampleState "draft one"
    "Drafter" none none none 3 (ReachAppend.init "intent" "s1" 5 0)
  exact ⟨h.1, h.2.1, h.2.2.1, h.2.2.2.1, h.2.2.2.2.1 0 (by decide)⟩

/-! ## Create endpoint: best-effort persistence (C4) -/

/-- A world with no checkpoints and an empty `_session_intents` dict. -/
def emptyWorld : StoreWorld where
  checkpoints := fun _ => none
  session_intents := []

lemma dictGet_dictPop (l : List (String × String)) (k : String) :
    dictGet (dictPop l k) k = none := by
  induction l with
  | nil => rfl
  | cons p t ih =>
    by_cases h : p.1 == k <;>
      simp_all [dictPop, dictGet, List.filter_cons, List.find?]

lemma dictGet_map_set (l : List (String × String)) (k v : String)
    (h : l.any (fun p => p.1 == k) = true) :
    dictGet (l.map (fun p => if p.1 == k then (k, v) else p)) k = some v := by
  induction l with
  | nil => simp at h
  | cons p t ih =>
    by_cases hp : p.1 == k
    · simp [dictGet, hp, List.find?]
    · have h2 : t.any (fun p => p.1 == k) = true := by
        simpa [List.any_cons, hp] using h
      simpa [dictGet, hp, List.find?] using ih h2

lemma dictGet_append_single (l : List (String × String)) (k v : String)
    (h : l.any (fun p => p.1 == k) = false) :
    dictGet (l ++ [(k, v)]) k = some v := by
  induction l with
  | nil => simp [dictGet, List.find?]
  | cons p t ih =>
    have hp : (p.1 == k) = false := by
      by_contra hc
      simp [List.any_cons, eq_true_of_ne_false hc] at h
    have h2 : t.any (fun p => p.1 == k) = false := by
      simpa [List.any_cons, hp] using h
    simpa [dictGet, hp, List.find?] using ih h2

lemma dictGet_dictSet_self (l : List (String × String)) (k v : String) :
    dictGet (dictSet l k v) k = some v := by
  unfold dictSet
  by_cases hany : l.any (fun p => p.1 == k)
  · simpa [hany] using dictGet_map_set l k v hany
  · simpa [hany] using dictGet_append_single l k v (Bool.eq_false_iff.mpr hany)

/-- C4 counterexample: a create request whose checkpoint write fails is
still answered with the session id, no checkpoint exists for that id when
`create_protocol` returns, and the intent sits in the in-memory
`_session_intents` cache — persistence is best-effort, not unconditional. -/
theorem c4_counterexample_create_without_persist :
    (create_protocol "calm breathing" (some "sid1") false 0 emptyWorld).1.session_id = "sid1" ∧
    ((create_protocol "calm breathing" (some "sid1") false 0 emptyWorld).2).checkpoints "sid1" = none ∧
    dictGet ((create_protocol "calm breathing" (some "sid1") false 0 emptyWorld).2).session_intents "sid1" =
      some "calm breathing" := ⟨rfl, rfl, rfl⟩

/-- C4 (amended): `create_protocol` always returns the session id with
status `"initializing"`; it stores the intent in the in-memory
`_session_intents` dict, *attempts* the checkpoint write, clears the cache
entry only when that write succeeded, and on failure returns anyway with
the checkpoint store untouched and the intent left in the cache for the
stream endpoint to seed later. -/
theorem c4_create_best_effort_persistence
    (intent sid : String) (ok : Bool) (now : Nat) (w : StoreWorld)
    (hsid : ¬(sid = "")) :
    (create_protocol intent (some sid) ok now w).1.session_id = sid ∧
    (create_protocol intent (some sid) ok now w).1.status = "initializing" ∧
    (ok = true →
      ((create_protocol intent (some sid) ok now w).2).checkpoints sid =
        some (create_initial_state intent sid 5 now) ∧
      dictGet ((create_protocol intent (some sid) ok now w).2).session_intents sid = none) ∧
    (ok = false →
      ((create_protocol intent (some sid) ok now w).2).checkpoints = w.checkpoints ∧
      dictGet ((create_protocol intent (some sid) ok now w).2).session_intents sid = some intent) := by
  have hbeq : (sid == "") = false := by
    simp [hsid]
  cases ok with
  | true =>
    refine ⟨?_, ?_, ?_, ?_⟩
    · simp [create_protocol, hbeq]
    · simp [create_protocol, hbeq]
    · intro _
      constructor
      · simp [create_protocol, hbeq, putCheckpoint]
      · simp [create_protocol, hbeq, putCheckpoint, dictGet_dictPop]
    · intro hc
      cases hc
  | false =>
    refine ⟨?_, ?_, ?_, ?_⟩
    · simp [create_protocol, hbeq]
    · simp [create_protocol, hbeq]
    · intro hc
      cases hc
    · intro _
      constructor
      · simp [create_protocol, hbeq]
      · simp [create_protocol, hbeq, dictGet_dictSet_self]

/-- Closed witness for C4 at a concrete successful create. -/
theorem c4_create_best_effort_persistence_witness :
    (create_protocol "x" (some "sid1") true 0 emptyWorld).1.session_id = "sid1" ∧
    ((create_protocol "x" (some "sid1") true 0 emptyWorld).2).checkpoints "sid1" =
      some (create_initial_state "x" "sid1" 5 0) ∧
    dictGet ((create_protocol "x" (some "sid1") true 0 emptyWorld).2).session_intents "sid1" = none := by
  have h := c4_create_best_effort_persistence "x" "sid1" true 0 emptyWorld (by decide)
  exact ⟨h.1, (h.2.2.1 rfl).1, (h.2.2.1 rfl).2⟩

/-! ## Approve endpoint: edit semantics (C6), missing session (C8),
missing draft (C10) -/

/-- The human approval note `approve_protocol` appends. -/
def approvalNote (msg : String) (now : Nat) : AgentNote where
  agent_name := "Human"
  note := msg
  target_agent := none
  timestamp := now
  priority := "info"

/-- The state the approve endpoint persists, given the base state after the
optional edit: the approval note (with the `" (with edits)"` marker iff an
edit happened) followed by the three approval flags. -/
def approveExpected (base : ProtocolState) (marker : Bool) (now : Nat) :
    ProtocolState :=
  { (add_agent_note base "Human"
      ("Protocol approved and finalized" ++ (if marker then " (with edits)" else ""))
      none "info" now)
    with human_approved := true, halted := false, status := "approved" }

/-- A stored session whose current draft is `"x"`. -/
def draftVals : ProtocolState := { sampleState with current_draft := some "x" }

/-- A world holding `draftVals` under session id `"s1"`. -/
def draftWorld : StoreWorld where
  checkpoints := fun k => if k == "s1" then some draftVals else none
  session_intents := []

/-- C6 counterexample: calling approve with `approved_content = ""` — which
*does* differ from the current draft `"x"` after trimming — performs no
replacement at all: Python truthiness skips the edit branch for the empty
string, so the persisted draft stays `"x"`, `human_edits` stays unset and
the note carries no marker, contrary to the claim's differing-content
case. -/
theorem c6_counterexample_empty_approved_content :
    ¬(pyStrip "" = pyStrip "x") ∧
    approve_body draftWorld "s1" (some "") 7 =
      Except.ok (approveExpected draftVals false 7, false,
        putCheckpoint draftWorld "s1" (approveExpected draftVals false 7)) ∧
    (approveExpected draftVals false 7).current_draft = some "x" ∧
    (approveExpected draftVals false 7).human_edits = none :=
  ⟨by decide, rfl, rfl, rfl⟩

/-- C6 (amended, restricted to non-empty `approved_content`): on a session
with a current draft, approve with content equal to the draft after
trimming persists the unedited state with no marker and `human_edits`
untouched; with content differing after trimming it replaces the draft,
records `human_edits`, and the note carries the `" (with edits)"` marker;
in both cases `human_approved = true`, `halted = false`,
`status = "approved"` are set on the state that is persisted. -/
theorem c6_approve_edit_semantics
    (w : StoreWorld) (sid : String) (vals : ProtocolState) (d c : String)
    (now : Nat) (hw : w.checkpoints sid = some vals)
    (hd : vals.current_draft = some d) (hc : ¬(c = "")) :
    (pyStrip c = pyStrip d →
      approve_body w sid (some c) now =
        Except.ok (approveExpected vals false now, false,
          putCheckpoint w sid (approveExpected vals false now)) ∧
      (approveExpected vals false now).current_draft = some d ∧
      (approveExpected vals false now).human_edits = vals.human_edits ∧
      (approveExpected vals false now).agent_notes =
        vals.agent_notes ++ [approvalNote "Protocol approved and finalized" now] ∧
      (approveExpected vals false now).human_approved = true ∧
      (approveExpected vals false now).halted = false ∧
      (approveExpected vals false now).status = "approved") ∧
    (¬(pyStrip c = pyStrip d) →
      approve_body w sid (some c) now =
        Except.ok (approveExpected { vals with current_draft := some c, human_edits := some c } true now, true,
          putCheckpoint w sid
            (approveExpected { vals with current_draft := some c, human_edits := some c } true now)) ∧
      (approveExpected { vals with current_draft := some c, human_edits := some c } true now).current_draft = some c ∧
      (approveExpected { vals with current_draft := some c, human_edits := some c } true now).human_edits = some c ∧
      (approveExpected { vals with current_draft := some c, human_edits := some c } true now).agent_notes =
        vals.agent_notes ++ [approvalNote "Protocol approved and finalized (with edits)" now] ∧
      (approveExpected { vals with current_draft := some c, human_edits := some c } true now).human_approved = true ∧
      (approveExpected { vals with current_draft := some c, human_edits := some c } true now).halted = false ∧
      (approveExpected { vals with current_draft := some c, human_edits := some c } true now).status = "approved") := by
  have hcb : (c == "") = false := by simp [hc]
  constructor
  · intro ht
    have htb : (pyStrip c == pyStrip d) = true := by simp [ht]
    refine ⟨?_, ?_, rfl, ?_, rfl, rfl, rfl⟩
    · simp [approve_body, hw, hd, hcb, htb, approveExpected]
    · simp [approveExpected, add_agent_note, hd]
    · simp [approveExpected, add_agent_note, approvalNote]
  · intro ht
    have htb : (pyStrip c == pyStrip d) = false := by simp [ht]
    refine ⟨?_, rfl, rfl, ?_, rfl, rfl, rfl⟩
    · simp [approve_body, hw, hd, hcb, htb, approveExpected]
    · simp [approveExpected, add_agent_note, approvalNote]

/-- Closed witness for C6: approving with `"x "` (trims equal to the stored
draft `"x"`) persists the unedited state with no marker. -/
theorem c6_approve_edit_semantics_witness :
    approve_body draftWorld "s1" (some "x ") 7 =
      Except.ok (approveExpected draftVals false 7, false,
        putCheckpoint draftWorld "s1" (approveExpected draftVals false 7)) ∧
    (approveExpected draftVals false 7).current_draft = some "x" ∧
    (approveExpected draftVals false 7).human_edits = draftVals.human_edits ∧
    (approveExpected draftVals false 7).agent_notes =
      draftVals.agent_notes ++ [approvalNote "Protocol approved and finalized" 7] ∧
    (approveExpected draftVals false 7).human_approved = true ∧
    (approveExpected draftVals false 7).halted = false ∧
    (approveExpected draftVals false 7).status = "approved" :=
  (c6_approve_edit_semantics draftWorld "s1" draftVals "x" "x " 7 rfl rfl
    (by decide)).1 (by decide)

/-- C8: on a session id with no checkpoint, both `approve_protocol` and
`halt_protocol` do raise `HTTPException(404, "Session not found")`
internally, but the blanket `except Exception` in each endpoint catches
that very exception and re-raises it as a **500** carrying the stringified
404 — so the surfaced error is 500-equivalent, not 404-equivalent. No
state is created or persisted (the world is returned unchanged). -/
theorem c8_missing_session_surfaces_500 :
    approve_protocol (fun w _ => (w, sampleState)) emptyWorld "missing" none 0 =
      (ApproveOutcome.httpError 500 ((PyExc.http 404 "Session not found").str), emptyWorld) ∧
    halt_protocol emptyWorld "missing" 0 =
      (HaltOutcome.httpError 500 ((PyExc.http 404 "Session not found").str), emptyWorld) ∧
    (PyExc.http 404 "Session not found").str = "404: Session not found" ∧
    ¬(500 = 404) :=
  ⟨rfl, rfl, rfl, by decide⟩

/-- A world holding a session `"s1"` whose state has no draft yet
(`current_draft = None`, as `create_initial_state` seeds it). -/
def noDraftWorld : StoreWorld where
  checkpoints := fun k => if k == "s1" then some sampleState else none
  session_intents := []

/-- C10: approving a session whose stored `current_draft` is `None` with a
non-empty `approved_content` raises `AttributeError` at the
trimmed-equality comparison (`None.strip()`), *before* any mutation or
persistence: the endpoint surfaces an error and the stored checkpoint is
byte-for-byte the one that was there before. -/
theorem c10_approve_no_draft_fails_before_persist
    (resume : StoreWorld → String → StoreWorld × ProtocolState)
    (w : StoreWorld) (sid : String) (vals : ProtocolState) (c : String)
    (now : Nat) (hw : w.checkpoints sid = some vals)
    (hd : vals.current_draft = none) (hc : ¬(c = "")) :
    approve_protocol resume w sid (some c) now =
      (ApproveOutcome.httpError 500 noneStripMsg, w) ∧
    (approve_protocol resume w sid (some c) now).2.checkpoints sid = some vals := by
  have hcb : (c == "") = false := by simp [hc]
  have hbody : approve_body w sid (some c) now =
      Except.error (PyExc.attributeError noneStripMsg) := by
    simp [approve_body, hw, hd, hcb]
  have h1 : approve_protocol resume w sid (some c) now =
      (ApproveOutcome.httpError 500 noneStripMsg, w) := by
    simp [approve_protocol, hbody, PyExc.str]
  exact ⟨h1, by rw [h1]; exact hw⟩

/-- Closed witness for C10 at a concrete draftless session. -/
theorem c10_approve_no_draft_fails_before_persist_witness :
    approve_protocol (fun w _ => (w, sampleState)) noDraftWorld "s1"
      (some "content") 0 =
      (ApproveOutcome.httpError 500 noneStripMsg, noDraftWorld) ∧
    (approve_protocol (fun w _ => (w, sampleState)) noDraftWorld "s1"
      (some "content") 0).2.checkpoints "s1" = some sampleState :=
  c10_approve_no_draft_fails_before_persist (fun w _ => (w, sampleState))
    noDraftWorld "s1" sampleState "content" 0 rfl rfl (by decide)

/-! ## Stream endpoint: idempotent terminal replay (C7) -/

/-- A runner that emits nothing and leaves the world unchanged (used only
to instantiate the abstract `workflow.astream` parameter in witnesses; the
replay theorem holds for *every* runner). -/
def idRunner : StoreWorld → String → List StreamEvent × StoreWorld :=
  fun w _ => ([], w)

/-- A stored state paused for human review. -/
def haltedState : ProtocolState := { sampleState with halted := true }

/-- A world holding the halted session `"s1"`. -/
def haltedWorld : StoreWorld where
  checkpoints := fun k => if k == "s1" then some haltedState else none
  session_intents := []

/-- C7: subscribing to a session whose stored state is `completed`, halted,
or `awaiting_approval` yields exactly one terminal event carrying the
stored snapshot, does not invoke the workflow engine, leaves the world
unchanged, and a repeated subscription (any later time) returns the very
same outcome. -/
theorem c7_stream_terminal_replay
    (runner : StoreWorld → String → List StreamEvent × StoreWorld)
    (w : StoreWorld) (sid : String) (v : ProtocolState) (now m : Nat)
    (hw : w.checkpoints sid = some v)
    (hterm : v.status = "completed" ∨ v.halted = true ∨
      v.status = "awaiting_approval") :
    (stream_protocol runner w sid now).events =
      [if v.status == "completed" then StreamEvent.complete (some v)
       else StreamEvent.haltedEv v "Workflow paused for human review"] ∧
    (stream_protocol runner w sid now).world = w ∧
    (stream_protocol runner w sid now).executed = false ∧
    stream_protocol runner (stream_protocol runner w sid now).world sid m =
      stream_protocol runner w sid now := by
  have hout : ∀ n : Nat, stream_protocol runner w sid n =
      { events := [if v.status == "completed" then StreamEvent.complete (some v)
                   else StreamEvent.haltedEv v "Workflow paused for human review"]
        world := w
        executed := false } := by
    intro n
    by_cases hc : v.status == "completed"
    · simp [stream_protocol, hw, hc]
    · have hh : (v.halted || (v.status == "awaiting_approval")) = true := by
        rcases hterm with h1 | h1 | h1
        · exact absurd (by simp [h1]) hc
        · simp [h1]
        · simp [h1]
      simp [stream_protocol, hw, hc, hh]
  refine ⟨by rw [hout now], by rw [hout now], by rw [hout now], ?_⟩
  rw [hout now, hout m]

/-- Closed witness for C7: replaying a halted session. -/
theorem c7_stream_terminal_replay_witness :
    (stream_protocol idRunner haltedWorld "s1" 0).events =
      [StreamEvent.haltedEv haltedState "Workflow paused for human review"] ∧
    (stream_protocol idRunner haltedWorld "s1" 0).world = haltedWorld ∧
    (stream_protocol idRunner haltedWorld "s1" 0).executed = false ∧
    stream_protocol idRunner (stream_protocol idRunner haltedWorld "s1" 0).world "s1" 1 =
      stream_protocol idRunner haltedWorld "s1" 0 :=
  c7_stream_terminal_replay idRunner haltedWorld "s1" haltedState 0 1 rfl
    (Or.inr (Or.inl rfl))

end Foundry
